import Mathlib

/-!
Verification of the sr-proxy server (src/server.js) against its specification.

The development shallowly embeds the two interesting units of the program:

* the Cache-Fetch Unit `getJsonWithCache` (server.js lines 29-37), modelled as a
  pure state transformer over an association-list cache, with the outcome of the
  single outbound `fetch` supplied as an explicit `FetchOutcome` argument and a
  `fetched` flag recording whether the network was touched;
* the two request handlers `/search/matches` (lines 56-71) and `/odds/match/:id`
  (lines 74-95), modelled as pure functions from the request parameters and the
  settled outcomes of their upstream calls to an HTTP response value.

JavaScript `undefined`/absent object fields are modelled by `Option`; JSON
numbers are modelled by `Rat` (the code only copies them, so any faithful
carrier works); `res.status(s).json({error: m})` is modelled by
`ApiResponse.err s m` and a plain `res.json(body)` by `ApiResponse.ok body`.
-/

/-- TTL of the cache, `CACHE_TTL_MS` in server.js (30 000 ms). -/
def CACHE_TTL_MS : Int := 30000

/-- The provider base URL, `SR_BASE` in server.js. -/
def SR_BASE : String := "https://api.sportradar.com"

/-- One entry of the `CACHE` map: `{ t: timestamp-ms, d: payload }`. -/
structure CacheEntry (α : Type) where
  t : Int
  d : α
deriving DecidableEq, Repr

/-- The `CACHE` map, a JS `Map` from URL strings to entries, modelled as an
association list in insertion order. -/
abbrev Cache (α : Type) : Type := List (String × CacheEntry α)

/-- `CACHE.get(url)`. -/
def cacheLookup {α : Type} (c : Cache α) (url : String) : Option (CacheEntry α) :=
  match c with
  | [] => none
  | (k, v) :: rest => if k = url then some v else cacheLookup rest url

/-- `CACHE.set(url, e)`: overwrite in place if the key exists, else append
(JS `Map.set` keeps the original insertion position of an existing key). -/
def cacheSet {α : Type} (c : Cache α) (url : String) (e : CacheEntry α) : Cache α :=
  match c with
  | [] => [(url, e)]
  | (k, v) :: rest => if k = url then (url, e) :: rest else (k, v) :: cacheSet rest url e

/-- The possible outcomes of the single `await fetch(url)` / `r.json()` sequence:
the transport throws, the response status is not ok, the body fails to decode,
or a payload is produced. -/
inductive FetchOutcome (α : Type) where
  | transportError (msg : String)
  | httpError (status : Nat) (statusText : String) (body : String)
  | decodeError (msg : String)
  | success (d : α)
deriving DecidableEq, Repr

instance {ε α : Type} [DecidableEq ε] [DecidableEq α] : DecidableEq (Except ε α) := fun x y =>
  match x, y with
  | .ok a, .ok b =>
      if h : a = b then isTrue (by rw [h]) else isFalse (by intro hh; cases hh; exact h rfl)
  | .error a, .error b =>
      if h : a = b then isTrue (by rw [h]) else isFalse (by intro hh; cases hh; exact h rfl)
  | .ok _, .error _ => isFalse (by intro hh; cases hh)
  | .error _, .ok _ => isFalse (by intro hh; cases hh)

/-- Result of one call to `getJsonWithCache`: the value returned or the error
thrown, the cache map afterwards, and whether an outbound fetch was performed. -/
structure CacheStep (α : Type) where
  result : Except String α
  cache : Cache α
  fetched : Bool
deriving DecidableEq

/-- The fetch-miss path of `getJsonWithCache` (server.js lines 32-36):
`if (!r.ok) throw new Error((r.status) (r.statusText): (await r.text()))`,
then `data = await r.json()`, `CACHE.set(url, { t: now, d: data })`.
A failure never touches the cache; a success stores the payload under the
`now` read at lookup time. -/
def performFetch {α : Type} (cache : Cache α) (now : Int) (url : String) :
    FetchOutcome α → CacheStep α
  | .transportError m => ⟨Except.error m, cache, true⟩
  | .httpError status statusText body =>
      ⟨Except.error (toString status ++ " " ++ statusText ++ ": " ++ body), cache, true⟩
  | .decodeError m => ⟨Except.error m, cache, true⟩
  | .success d => ⟨Except.ok d, cacheSet cache url ⟨now, d⟩, true⟩

/-- `getJsonWithCache` (server.js lines 29-37): look the URL up; if a hit is
younger than the TTL return its payload with no fetch; otherwise perform the
fetch. `now` is the single `Date.now()` read at lookup time. -/
def getJsonWithCache {α : Type} (cache : Cache α) (now : Int) (url : String)
    (fetch : FetchOutcome α) : CacheStep α :=
  match cacheLookup cache url with
  | some hit =>
      if now - hit.t < CACHE_TTL_MS then ⟨Except.ok hit.d, cache, false⟩
      else performFetch cache now url fetch
  | none => performFetch cache now url fetch

/-- The error message a failed fetch outcome turns into (unused on `success`). -/
def fetchErrorMsg {α : Type} : FetchOutcome α → String
  | .transportError m => m
  | .httpError status statusText body => toString status ++ " " ++ statusText ++ ": " ++ body
  | .decodeError m => m
  | .success _ => ""

/-- Whether a fetch outcome is a failure. -/
def fetchFails {α : Type} : FetchOutcome α → Bool
  | .success _ => false
  | _ => true

/-- A cache entry is considered fresh at time `t` exactly when the guard of
line 31, `t - entry.t < CACHE_TTL_MS`, holds. -/
def isFreshAt {α : Type} (e : CacheEntry α) (t : Int) : Bool :=
  decide (t - e.t < CACHE_TTL_MS)

theorem cacheLookup_cacheSet {α : Type} (c : Cache α) (url : String) (e : CacheEntry α) :
    cacheLookup (cacheSet c url e) url = some e := by
  induction c with
  | nil => simp [cacheSet, cacheLookup]
  | cons kv rest ih =>
      obtain ⟨k, v⟩ := kv
      by_cases h : k = url
      · simp [cacheSet, cacheLookup, h]
      · simp [cacheSet, cacheLookup, h, ih]

theorem performFetch_fail {α : Type} (cache : Cache α) (now : Int) (url : String)
    (fetch : FetchOutcome α) (hfail : fetchFails fetch = true) :
    performFetch cache now url fetch = ⟨Except.error (fetchErrorMsg fetch), cache, true⟩ := by
  cases fetch <;> simp_all [performFetch, fetchErrorMsg, fetchFails]

/-- Claim C1: if the cache holds an entry for the exact URL and `now - entry.t`
is strictly below 30 000 ms, `getJsonWithCache` returns the stored payload,
performs no fetch, and leaves the cache unmodified — for every possible fetch
outcome. -/
theorem c1_cache_hit_no_fetch {α : Type} (cache : Cache α) (now : Int) (url : String)
    (fetch : FetchOutcome α) (e : CacheEntry α)
    (hfind : cacheLookup cache url = some e)
    (hfresh : now - e.t < CACHE_TTL_MS) :
    getJsonWithCache cache now url fetch = ⟨Except.ok e.d, cache, false⟩ := by
  simp [getJsonWithCache, hfind, hfresh]

theorem c1_cache_hit_no_fetch_witness :
    cacheLookup [("u", (⟨100, 42⟩ : CacheEntry Nat))] "u" = some ⟨100, 42⟩ ∧
      (10100 : Int) - (100 : Int) < CACHE_TTL_MS ∧
      getJsonWithCache [("u", (⟨100, 42⟩ : CacheEntry Nat))] 10100 "u" (.success 7) =
        ⟨Except.ok 42, [("u", ⟨100, 42⟩)], false⟩ :=
  ⟨by decide, by decide,
    c1_cache_hit_no_fetch [("u", ⟨100, 42⟩)] 10100 "u" (.success 7) ⟨100, 42⟩
      (by decide) (by decide)⟩

/-- Claim C2: when the entry for the URL is absent or at least 30 000 ms old and
the fetch fails (transport, HTTP status, or decode failure), `getJsonWithCache`
fails with the failure's error message and the cache map is left exactly as it
was: the failure is never stored and no stale payload is returned. -/
theorem c2_failure_leaves_cache {α : Type} (cache : Cache α) (now : Int) (url : String)
    (fetch : FetchOutcome α)
    (hstale : ∀ e, cacheLookup cache url = some e → ¬(now - e.t < CACHE_TTL_MS))
    (hfail : fetchFails fetch = true) :
    getJsonWithCache cache now url fetch =
      ⟨Except.error (fetchErrorMsg fetch), cache, true⟩ := by
  cases hlook : cacheLookup cache url with
  | none => simp [getJsonWithCache, hlook, performFetch_fail cache now url fetch hfail]
  | some e =>
      simp [getJsonWithCache, hlook, hstale e hlook,
        performFetch_fail cache now url fetch hfail]

theorem c2_failure_leaves_cache_witness :
    fetchFails (FetchOutcome.httpError (α := Nat) 404 "Not Found" "no such match") = true ∧
      getJsonWithCache ([("other", ⟨0, 5⟩)] : Cache Nat) 99 "u"
          (.httpError 404 "Not Found" "no such match") =
        ⟨Except.error "404 Not Found: no such match", [("other", ⟨0, 5⟩)], true⟩ :=
  ⟨by decide,
    c2_failure_leaves_cache [("other", ⟨0, 5⟩)] 99 "u" (.httpError 404 "Not Found" "no such match")
      (by intro e he; simp [cacheLookup] at he) (by decide)⟩

/-- Claim C9: on a successful miss (or expired-entry) fetch the stored timestamp
is the `now` read at lookup time, before the fetch began; hence the entry is
fresh at time `now + dur + rem` (the return time plus `rem`, when the fetch took
`dur`) exactly when `rem < TTL - dur`: the remaining freshness at return is the
TTL minus the fetch duration, not a full TTL from the response's arrival. -/
theorem c9_timestamp_read_at_lookup {α : Type} (cache : Cache α) (now : Int) (url : String)
    (d : α)
    (hstale : ∀ e, cacheLookup cache url = some e → ¬(now - e.t < CACHE_TTL_MS)) :
    cacheLookup (getJsonWithCache cache now url (.success d)).cache url = some ⟨now, d⟩ ∧
      ∀ dur rem : Int,
        (isFreshAt (⟨now, d⟩ : CacheEntry α) (now + dur + rem) = true ↔
          rem < CACHE_TTL_MS - dur) := by
  constructor
  · cases hlook : cacheLookup cache url with
    | none => simp [getJsonWithCache, hlook, performFetch, cacheLookup_cacheSet]
    | some e =>
        simp [getJsonWithCache, hlook, hstale e hlook, performFetch, cacheLookup_cacheSet]
  · intro dur rem
    simp only [isFreshAt, decide_eq_true_eq]
    omega

theorem c9_timestamp_read_at_lookup_witness :
    cacheLookup (getJsonWithCache ([] : Cache Nat) 1000 "u" (.success 3)).cache "u" =
        some ⟨1000, 3⟩ ∧
      (isFreshAt (⟨1000, 3⟩ : CacheEntry Nat) (1000 + 12000 + 17999) = true ↔
        (17999 : Int) < CACHE_TTL_MS - 12000) :=
  ⟨(c9_timestamp_read_at_lookup [] 1000 "u" 3 (by intro e he; simp [cacheLookup] at he)).1,
    (c9_timestamp_read_at_lookup ([] : Cache Nat) 1000 "u" 3
        (by intro e he; simp [cacheLookup] at he)).2 12000 17999⟩

/-! ## Upstream data model for the handlers

`Option` marks JSON fields that may be absent; the handlers only ever read the
fields below, so the structures carry exactly those. -/

/-- A competitor record inside an event: `{ qualifier, name }`. -/
structure Competitor where
  qualifier : Option String
  name : Option String
deriving DecidableEq, Repr

/-- A tournament record: the handler reads only `tournament.name`. -/
structure Tournament where
  name : Option String
deriving DecidableEq, Repr

/-- One entry of `sport_events`: the handler reads `id`, `start_time`,
`tournament.name` and `competitors`, each behind optional chaining. -/
structure SportEvent where
  id : Option String
  start_time : Option String
  tournament : Option Tournament
  competitors : Option (List Competitor)
deriving DecidableEq, Repr

/-- The schedules payload: `data?.sport_events` (the array may itself hold
null entries, hence `Option SportEvent`). -/
structure ScheduleData where
  sport_events : Option (List (Option SportEvent))
deriving DecidableEq, Repr

/-- The consumer-facing MatchSummary built by `/search/matches` (lines 62-66).
`home`/`away` are plain strings because of the `?? ""` default. -/
structure MatchSummary where
  match_id : Option String
  scheduled : Option String
  league : Option String
  home : String
  away : String
deriving DecidableEq, Repr

/-- `data?.sport_events || []` (line 62). -/
def sportEventsOf (data : Option ScheduleData) : List (Option SportEvent) :=
  (data.bind ScheduleData.sport_events).getD []

/-- The per-event mapping of lines 63-65:
`ev?.competitors?.find(c => c.qualifier === q)?.name ?? ""` for home and away,
plus the passthrough fields. -/
def toSummary (ev : Option SportEvent) : MatchSummary :=
  let h := ((ev.bind SportEvent.competitors).bind
      (fun cs => cs.find? (fun c => decide (c.qualifier = some "home")))).bind Competitor.name
  let a := ((ev.bind SportEvent.competitors).bind
      (fun cs => cs.find? (fun c => decide (c.qualifier = some "away")))).bind Competitor.name
  { match_id := ev.bind SportEvent.id
    scheduled := ev.bind SportEvent.start_time
    league := (ev.bind SportEvent.tournament).bind Tournament.name
    home := h.getD ""
    away := a.getD "" }

/-- JS truthiness of a possibly-absent query-parameter string: absent and `""`
are falsy (`if (!date)`, `if (home)`, `if (away)`). -/
def jsTruthy : Option String → Bool
  | none => false
  | some s => decide (s ≠ "")

/-- `hay` starts with `pat` (character-wise). -/
def leadsWith : List Char → List Char → Bool
  | _, [] => true
  | [], _ :: _ => false
  | a :: as, b :: bs => a == b && leadsWith as bs

/-- `pat` occurs somewhere in the second list. -/
def occursAnywhere (pat : List Char) : List Char → Bool
  | [] => pat.isEmpty
  | a :: rest => leadsWith (a :: rest) pat || occursAnywhere pat rest

/-- JS `hay.includes(pat)`. -/
def jsIncludes (hay pat : String) : Bool :=
  occursAnywhere pat.data hay.data

/-- Upper-case hexadecimal digit for `n < 16`. -/
def hexDigit (n : Nat) : Char :=
  if n < 10 then Char.ofNat (48 + n) else Char.ofNat (55 + n)

/-- `%XY` percent-escape of one byte. -/
def percentByte (b : Nat) : List Char :=
  ['%', hexDigit (b / 16), hexDigit (b % 16)]

/-- UTF-8 bytes of one character. -/
def utf8Bytes (c : Char) : List Nat :=
  let n := c.toNat
  if n < 128 then [n]
  else if n < 2048 then [192 + n / 64, 128 + n % 64]
  else if n < 65536 then [224 + n / 4096, 128 + (n / 64) % 64, 128 + n % 64]
  else [240 + n / 262144, 128 + (n / 4096) % 64, 128 + (n / 64) % 64, 128 + n % 64]

/-- Characters `encodeURIComponent` leaves unescaped
(`A-Z a-z 0-9 - _ . ! ~ * ' ( )`). -/
def uriUnescaped (c : Char) : Bool :=
  c.isAlpha || c.isDigit || ['-', '_', '.', '!', '~', '*', Char.ofNat 39, '(', ')'].contains c

/-- JS `encodeURIComponent`. -/
def encodeURIComponent (s : String) : String :=
  String.mk (s.data.flatMap fun c =>
    if uriUnescaped c then [c] else (utf8Bytes c).flatMap percentByte)

/-- The upstream schedules URL of line 60. -/
def scheduleUrl (apiKey soccerBase date : String) : String :=
  SR_BASE ++ soccerBase ++ "/schedules/" ++ encodeURIComponent date ++
    "/schedules.json?api_key=" ++ apiKey

/-- An HTTP response from a handler: `res.json(body)` (status 200) or
`res.status(status).json({error: message})`. -/
inductive ApiResponse (α : Type) where
  | ok (body : α)
  | err (status : Nat) (message : String)
deriving DecidableEq, Repr

/-- The success body of `/search/matches` (line 69). -/
structure SearchBody where
  date : String
  count : Nat
  «matches» : List MatchSummary
deriving DecidableEq, Repr

/-- A handler execution: the response sent plus the upstream URLs it requested
(in request order), so that "no fetch was performed" is expressible. -/
structure HandlerRun (α : Type) where
  response : ApiResponse α
  requestedUrls : List String
deriving DecidableEq, Repr

/-- The `/search/matches` handler (lines 56-71). The settled outcome of
`getJsonWithCache(url)` is supplied by the `upstream` oracle; a thrown error
is caught and becomes a 500 `{error}` response. -/
def searchMatches (apiKey soccerBase : String) (date home away : Option String)
    (upstream : String → Except String (Option ScheduleData)) : HandlerRun SearchBody :=
  if jsTruthy date then
    let dateVal := date.getD ""
    let url := scheduleUrl apiKey soccerBase dateVal
    match upstream url with
    | .error e => ⟨.err 500 e, [url]⟩
    | .ok data =>
        let ms0 := (sportEventsOf data).map toSummary
        let ms1 := if jsTruthy home then
            ms0.filter (fun m => jsIncludes m.home.toLower ((home.getD "").toLower))
          else ms0
        let ms2 := if jsTruthy away then
            ms1.filter (fun m => jsIncludes m.away.toLower ((away.getD "").toLower))
          else ms1
        ⟨.ok ⟨dateVal, ms2.length, ms2⟩, [url]⟩
  else ⟨.err 400 "Falta ?date=YYYY-MM-DD", []⟩

/-- Claim C8: with the `date` query parameter absent the handler answers
400 with an explanatory error body and requests no upstream URL at all,
whatever the other parameters and the upstream would have answered. -/
theorem c8_missing_date_400 (apiKey soccerBase : String) (home away : Option String)
    (upstream : String → Except String (Option ScheduleData)) :
    searchMatches apiKey soccerBase none home away upstream =
      ⟨ApiResponse.err 400 "Falta ?date=YYYY-MM-DD", []⟩ :=
  rfl

/-- Claim C10: a `home` (or `away`) filter that is present but equal to the
empty string is falsy, so the corresponding filtering step is skipped and the
handler behaves exactly as if the parameter were absent. -/
theorem c10_empty_filter_skipped (apiKey soccerBase : String) (date home away : Option String)
    (upstream : String → Except String (Option ScheduleData)) :
    searchMatches apiKey soccerBase date (some "") away upstream =
        searchMatches apiKey soccerBase date none away upstream ∧
      searchMatches apiKey soccerBase date home (some "") upstream =
        searchMatches apiKey soccerBase date home none upstream := by
  constructor <;>
    · cases hjd : jsTruthy date with
      | false => simp [searchMatches, hjd]
      | true =>
          simp only [searchMatches, hjd, if_true]
          cases upstream (scheduleUrl apiKey soccerBase (date.getD "")) with
          | error e => rfl
          | ok data => simp [jsTruthy]

/-- Two consecutive `filter` passes equal one pass with the conjunction. -/
theorem filter_then_filter {β : Type} (p q : β → Bool) (l : List β) :
    (l.filter p).filter q = l.filter (fun a => p a && q a) := by
  induction l with
  | nil => rfl
  | cons a t ih => cases hp : p a <;> cases hq : q a <;> simp [List.filter_cons, hp, hq, ih]

/-- `find?` returns the first element of the list satisfying the predicate. -/
theorem find?_first_match {β : Type} (p : β → Bool) (l₁ l₂ : List β) (c : β)
    (h₁ : ∀ x ∈ l₁, p x = false) (hc : p c = true) :
    (l₁ ++ c :: l₂).find? p = some c := by
  induction l₁ with
  | nil => simp [List.find?, hc]
  | cons a t ih =>
      have ha := h₁ a (by simp)
      simp only [List.cons_append, List.find?, ha]
      exact ih fun x hx => h₁ x (by simp [hx])

/-- The competitor list the mapping of lines 63-64 searches (empty when the
event or its `competitors` field is absent). -/
def eventCompetitors (ev : Option SportEvent) : List Competitor :=
  (ev.bind SportEvent.competitors).getD []

theorem toSummary_home (ev : Option SportEvent) :
    (toSummary ev).home =
      (((eventCompetitors ev).find? fun c => decide (c.qualifier = some "home")).bind
          Competitor.name).getD "" := by
  cases ev with
  | none => rfl
  | some e => cases h : e.competitors <;> simp [toSummary, eventCompetitors, h]

theorem toSummary_away (ev : Option SportEvent) :
    (toSummary ev).away =
      (((eventCompetitors ev).find? fun c => decide (c.qualifier = some "away")).bind
          Competitor.name).getD "" := by
  cases ev with
  | none => rfl
  | some e => cases h : e.competitors <;> simp [toSummary, eventCompetitors, h]

/-- The conjunction of the two optional case-insensitive substring filters of
lines 67-68, as a single predicate: a summary is kept when, for each filter
that is given (present and truthy), its lower-cased team name contains the
lower-cased filter text. -/
def keepsSummary (home away : Option String) (m : MatchSummary) : Bool :=
  (!jsTruthy home || jsIncludes m.home.toLower ((home.getD "").toLower)) &&
    (!jsTruthy away || jsIncludes m.away.toLower ((away.getD "").toLower))

/-- Claim C5: with `date` given and the upstream fetch succeeding, for every
combination of given and absent `home`/`away` filters the handler keeps exactly
the summaries whose lower-cased home name contains the lower-cased home filter
when `home` is given, and likewise for away (the conjunction of the two
independent substring tests, home applied first), preserves the upstream event
order (the result is a sublist of the mapped event list), and answers
`{date, count, matches}` with `count` the number of matches after filtering. -/
theorem c5_search_filtering (apiKey soccerBase d : String) (home away : Option String)
    (data : Option ScheduleData)
    (upstream : String → Except String (Option ScheduleData))
    (hd : d ≠ "")
    (hup : upstream (scheduleUrl apiKey soccerBase d) = Except.ok data) :
    searchMatches apiKey soccerBase (some d) home away upstream =
      ⟨ApiResponse.ok
          { date := d
            count := (((sportEventsOf data).map toSummary).filter
                (keepsSummary home away)).length
            «matches» := ((sportEventsOf data).map toSummary).filter
                (keepsSummary home away) },
        [scheduleUrl apiKey soccerBase d]⟩ ∧
      (((sportEventsOf data).map toSummary).filter (keepsSummary home away)).Sublist
        ((sportEventsOf data).map toSummary) := by
  constructor
  · have h1 : jsTruthy (some d) = true := by simp [jsTruthy, hd]
    have hk : keepsSummary home away = fun m =>
        (!jsTruthy home || jsIncludes m.home.toLower ((home.getD "").toLower)) &&
          (!jsTruthy away || jsIncludes m.away.toLower ((away.getD "").toLower)) := rfl
    simp only [searchMatches, h1, if_true, Option.getD_some, hup, hk]
    cases hh : jsTruthy home <;> cases ha : jsTruthy away <;>
      simp [hh, ha, filter_then_filter, Bool.and_comm]
  · exact List.filter_sublist _

/-- A concrete schedules payload with two events. -/
def scheduleDataEx : ScheduleData :=
  { sport_events := some
      [ some { id := some "m1", start_time := some "2024-05-01T18:00:00Z",
               tournament := some ⟨some "LaLiga"⟩,
               competitors := some
                 [⟨some "home", some "Real Madrid"⟩, ⟨some "away", some "Barcelona"⟩] }
      , some { id := some "m2", start_time := some "2024-05-01T20:00:00Z",
               tournament := some ⟨some "LaLiga"⟩,
               competitors := some
                 [⟨some "home", some "Sevilla"⟩, ⟨some "away", some "Betis"⟩] } ] }

theorem c5_search_filtering_witness :
    searchMatches "k" "/soccer/trial/v4/es" (some "2024-05-01") (some "real") none
        (fun _ => Except.ok (some scheduleDataEx)) =
      ⟨ApiResponse.ok
          { date := "2024-05-01"
            count := (((sportEventsOf (some scheduleDataEx)).map toSummary).filter
                (keepsSummary (some "real") none)).length
            «matches» := ((sportEventsOf (some scheduleDataEx)).map toSummary).filter
                (keepsSummary (some "real") none) },
        [scheduleUrl "k" "/soccer/trial/v4/es" "2024-05-01"]⟩ ∧
      (((sportEventsOf (some scheduleDataEx)).map toSummary).filter
          (keepsSummary (some "real") none)).Sublist
        ((sportEventsOf (some scheduleDataEx)).map toSummary) :=
  c5_search_filtering "k" "/soccer/trial/v4/es" "2024-05-01" (some "real") none
    (some scheduleDataEx) (fun _ => Except.ok (some scheduleDataEx))
    (by decide) rfl

/-- Claim C6: the match-search mapping resolves the `home` (resp. `away`) field
to the name of the first competitor entry whose qualifier equals `"home"`
(resp. `"away"`), and to the empty string — never an error — when no such
entry exists. -/
theorem c6_summary_qualifier_lookup (ev : Option SportEvent) :
    ((∀ c ∈ eventCompetitors ev, c.qualifier ≠ some "home") → (toSummary ev).home = "") ∧
      (∀ l₁ c l₂, eventCompetitors ev = l₁ ++ c :: l₂ →
        (∀ x ∈ l₁, x.qualifier ≠ some "home") → c.qualifier = some "home" →
        (toSummary ev).home = c.name.getD "") ∧
      ((∀ c ∈ eventCompetitors ev, c.qualifier ≠ some "away") → (toSummary ev).away = "") ∧
      (∀ l₁ c l₂, eventCompetitors ev = l₁ ++ c :: l₂ →
        (∀ x ∈ l₁, x.qualifier ≠ some "away") → c.qualifier = some "away" →
        (toSummary ev).away = c.name.getD "") := by
  refine ⟨?_, ?_, ?_, ?_⟩
  · intro hnone
    rw [toSummary_home]
    have : (eventCompetitors ev).find? (fun c => decide (c.qualifier = some "home")) = none :=
      List.find?_eq_none.mpr fun x hx => by simpa using hnone x hx
    simp [this]
  · intro l₁ c l₂ hdec h₁ hc
    rw [toSummary_home, hdec,
      find?_first_match _ l₁ l₂ c (fun x hx => by simpa using h₁ x hx) (by simpa using hc)]
    rfl
  · intro hnone
    rw [toSummary_away]
    have : (eventCompetitors ev).find? (fun c => decide (c.qualifier = some "away")) = none :=
      List.find?_eq_none.mpr fun x hx => by simpa using hnone x hx
    simp [this]
  · intro l₁ c l₂ hdec h₁ hc
    rw [toSummary_away, hdec,
      find?_first_match _ l₁ l₂ c (fun x hx => by simpa using h₁ x hx) (by simpa using hc)]
    rfl

/-- An event whose only competitor is the away team. -/
def evOnlyAway : Option SportEvent :=
  some { id := some "m9", start_time := some "2024-05-02T10:00:00Z",
         tournament := none,
         competitors := some [⟨some "away", some "Betis"⟩] }

theorem c6_summary_qualifier_lookup_witness :
    (toSummary evOnlyAway).home = "" ∧
      (toSummary evOnlyAway).away =
        (Competitor.mk (some "away") (some "Betis")).name.getD "" :=
  ⟨(c6_summary_qualifier_lookup evOnlyAway).1 (by decide),
    (c6_summary_qualifier_lookup evOnlyAway).2.2.2 [] ⟨some "away", some "Betis"⟩ [] rfl
      (by simp) rfl⟩

/-! ## The odds handler `/odds/match/:id` (lines 74-95) -/

/-- An upstream market outcome record: `{ name, probability }`. JSON numbers
are carried as rationals; the handler only copies them. -/
structure Outcome where
  name : Option String
  probability : Option Rat
deriving DecidableEq, Repr

/-- An upstream market record: `{ name, outcomes }`. -/
structure Market where
  name : Option String
  outcomes : Option (List Outcome)
deriving DecidableEq, Repr

/-- The `probabilities` object of the probabilities payload. -/
structure Probabilities where
  markets : Option (List Market)
deriving DecidableEq, Repr

/-- The probabilities payload: the handler reads `prob?.probabilities?.markets`. -/
structure ProbResponse where
  probabilities : Option Probabilities
deriving DecidableEq, Repr

/-- The `sport_event` object of the summary payload. -/
structure SportEventSummary where
  start_time : Option String
  competitors : Option (List Competitor)
deriving DecidableEq, Repr

/-- The summary payload: the handler reads `sum?.sport_event`. -/
structure SummaryResponse where
  sport_event : Option SportEventSummary
deriving DecidableEq, Repr

/-- One remapped outcome of the response: `{ label: o.name, probability: o.probability }`. -/
structure OddsOutcomeEntry where
  label : Option String
  probability : Option Rat
deriving DecidableEq, Repr

/-- One remapped market of the response: `{ key: m.name, outcomes }`. -/
structure OddsMarket where
  key : Option String
  outcomes : List OddsOutcomeEntry
deriving DecidableEq, Repr

/-- The success body of `/odds/match/:id` (line 93). `home`/`away` carry no
`?? ""` default in the code, so they stay `Option String`. -/
structure OddsBody where
  match_id : String
  scheduled : Option String
  home : Option String
  away : Option String
  markets : List OddsMarket
deriving DecidableEq, Repr

/-- The per-market remapping of lines 85-91:
`{ key: m.name, outcomes: (m.outcomes || []).map(o => ({label, probability})) }`. -/
def mapMarket (m : Market) : OddsMarket :=
  { key := m.name
    outcomes := (m.outcomes.getD []).map fun o =>
      { label := o.name, probability := o.probability } }

/-- `prob?.probabilities?.markets` before the `|| []` default. -/
def marketsSrc (p : Option ProbResponse) : Option (List Market) :=
  (p.bind ProbResponse.probabilities).bind Probabilities.markets

/-- `prob?.probabilities?.markets || []`. -/
def marketsListOf (p : Option ProbResponse) : List Market :=
  (marketsSrc p).getD []

/-- The `markets` sequence of the odds response. -/
def oddsMarkets (p : Option ProbResponse) : List OddsMarket :=
  (marketsListOf p).map mapMarket

/-- `sum?.sport_event?.competitors?.find(c => c.qualifier === q)?.name`
(lines 81-82) — note: no `?? ""` default here, unlike lines 63-64. -/
def summaryCompetitorName (s : Option SummaryResponse) (q : String) : Option String :=
  (((s.bind SummaryResponse.sport_event).bind SportEventSummary.competitors).bind
      fun cs => cs.find? fun c => decide (c.qualifier = some q)).bind Competitor.name

/-- The competitor list the odds handler searches (empty when the summary,
its `sport_event` or its `competitors` is absent). -/
def summaryCompetitors (s : Option SummaryResponse) : List Competitor :=
  ((s.bind SummaryResponse.sport_event).bind SportEventSummary.competitors).getD []

/-- The `/odds/match/:id` handler (lines 74-95). The settled outcomes of the
two `getJsonWithCache` calls issued through `Promise.all` are supplied as
`Except` values; any rejection is caught and becomes a 500 `{error}` response.
(When both fetches fail, `Promise.all` rejects with whichever settled first;
this embedding resolves that tie in favour of the probabilities fetch. The
claims below only concern runs where at most one of the two fails.) -/
def oddsMatch (id : String) (prob : Except String (Option ProbResponse))
    (sum : Except String (Option SummaryResponse)) : ApiResponse OddsBody :=
  match prob, sum with
  | .error e, _ => .err 500 e
  | .ok _, .error e => .err 500 e
  | .ok p, .ok s =>
      .ok { match_id := id
            scheduled := (s.bind SummaryResponse.sport_event).bind SportEventSummary.start_time
            home := summaryCompetitorName s "home"
            away := summaryCompetitorName s "away"
            markets := oddsMarkets p }

/-- The body of a 200 response, `none` for an error response. -/
def ApiResponse.okBody? {α : Type} : ApiResponse α → Option α
  | .ok b => some b
  | .err _ _ => none

theorem summaryCompetitorName_eq (s : Option SummaryResponse) (q : String) :
    summaryCompetitorName s q =
      ((summaryCompetitors s).find? fun c => decide (c.qualifier = some q)).bind
        Competitor.name := by
  rcases s with _ | r
  · rfl
  · rcases hse : r.sport_event with _ | se
    · simp [summaryCompetitorName, summaryCompetitors, hse]
    · rcases hc : se.competitors with _ | cs <;>
        simp [summaryCompetitorName, summaryCompetitors, hse, hc]

/-- A summary response whose only competitor is the away team. -/
def c3SumEx : Option SummaryResponse :=
  some { sport_event := some { start_time := some "2024-05-01T18:00:00Z",
                               competitors := some [⟨some "away", some "Betis"⟩] } }

/-- Claim C3 is false on the code: for a summary whose `"home"` competitor is
missing, the odds handler leaves the home field undefined (`none`), not the
empty string — lines 81-82 have no `?? ""` default, unlike lines 63-64. -/
theorem c3_counterexample :
    (oddsMatch "m1" (Except.ok (some { probabilities := none }))
          (Except.ok c3SumEx)).okBody?.map OddsBody.home = some none ∧
      some (none : Option String) ≠ some (some "") :=
  ⟨rfl, by simp⟩

/-- Claim C3 as amended: when both fetches succeed and the summary holds no
competitor with qualifier `"home"` (respectively `"away"`), the odds handler
still succeeds — never an error — but resolves the home (respectively away)
field to `undefined` (absent from the JSON body), not to the empty string.
The two qualifiers are independent implications: either may be missing while
the other is present. -/
theorem c3_amended_missing_competitor (id : String) (p : Option ProbResponse)
    (s : Option SummaryResponse) :
    ((∀ c ∈ summaryCompetitors s, c.qualifier ≠ some "home") →
        (oddsMatch id (Except.ok p) (Except.ok s)).okBody?.map OddsBody.home = some none) ∧
      ((∀ c ∈ summaryCompetitors s, c.qualifier ≠ some "away") →
        (oddsMatch id (Except.ok p) (Except.ok s)).okBody?.map OddsBody.away = some none) := by
  constructor
  · intro hh
    have hfh : (summaryCompetitors s).find? (fun c => decide (c.qualifier = some "home")) =
        none := List.find?_eq_none.mpr fun x hx => by simpa using hh x hx
    simp [oddsMatch, ApiResponse.okBody?, summaryCompetitorName_eq, hfh]
  · intro ha
    have hfa : (summaryCompetitors s).find? (fun c => decide (c.qualifier = some "away")) =
        none := List.find?_eq_none.mpr fun x hx => by simpa using ha x hx
    simp [oddsMatch, ApiResponse.okBody?, summaryCompetitorName_eq, hfa]

/-- A summary response with an empty competitor list. -/
def c3SumNoComp : Option SummaryResponse :=
  some { sport_event := some { start_time := none, competitors := some [] } }

theorem c3_amended_missing_competitor_witness :
    (oddsMatch "m2" (Except.ok none) (Except.ok c3SumEx)).okBody?.map OddsBody.home =
        some none ∧
      (oddsMatch "m2" (Except.ok none) (Except.ok c3SumNoComp)).okBody?.map OddsBody.away =
        some none :=
  ⟨(c3_amended_missing_competitor "m2" none c3SumEx).1 (by decide),
    (c3_amended_missing_competitor "m2" none c3SumNoComp).2 (by decide)⟩

/-- Claim C4: if exactly one of the two upstream calls fails, the handler
answers 500 with the failure's message as `{error}` body; no partial odds
object built from the successful call is ever returned. -/
theorem c4_either_failure_500 (id e : String) (p : Option ProbResponse)
    (s : Option SummaryResponse) :
    oddsMatch id (Except.error e) (Except.ok s) = ApiResponse.err 500 e ∧
      oddsMatch id (Except.ok p) (Except.error e) = ApiResponse.err 500 e :=
  ⟨rfl, rfl⟩

/-- Claim C7: the markets sequence keeps each upstream market's `name` as
`key` and remaps each outcome to `{label: name, probability}`, preserving the
upstream order of markets and of outcomes within each market (stated
positionally); a missing markets list — or a missing outcomes list inside a
market — yields an empty sequence rather than an error. -/
theorem c7_markets_mapping (p : Option ProbResponse) :
    (marketsSrc p = none → oddsMarkets p = []) ∧
      (∀ m ∈ marketsListOf p, m.outcomes = none → (mapMarket m).outcomes = []) ∧
      (∀ i : Nat, (oddsMarkets p)[i]?.map OddsMarket.key =
        ((marketsListOf p)[i]?).map Market.name) ∧
      (∀ i j : Nat,
        ((oddsMarkets p)[i]?.bind fun m => m.outcomes[j]?).map OddsOutcomeEntry.label =
          ((marketsListOf p)[i]?.bind fun m => (m.outcomes.getD [])[j]?).map Outcome.name) ∧
      (∀ i j : Nat,
        ((oddsMarkets p)[i]?.bind fun m => m.outcomes[j]?).map OddsOutcomeEntry.probability =
          ((marketsListOf p)[i]?.bind fun m => (m.outcomes.getD [])[j]?).map
            Outcome.probability) := by
  refine ⟨?_, ?_, ?_, ?_, ?_⟩
  · intro h; simp [oddsMarkets, marketsListOf, h]
  · intro m _ hout; simp [mapMarket, hout]
  · intro i
    cases hm : (marketsListOf p)[i]? <;>
      simp [oddsMarkets, List.getElem?_map, hm, mapMarket]
  · intro i j
    cases hm : (marketsListOf p)[i]? with
    | none => simp [oddsMarkets, List.getElem?_map, hm]
    | some m0 =>
        cases ho : (m0.outcomes.getD [])[j]? <;>
          simp [oddsMarkets, List.getElem?_map, hm, mapMarket, ho]
  · intro i j
    cases hm : (marketsListOf p)[i]? with
    | none => simp [oddsMarkets, List.getElem?_map, hm]
    | some m0 =>
        cases ho : (m0.outcomes.getD [])[j]? <;>
          simp [oddsMarkets, List.getElem?_map, hm, mapMarket, ho]

/-- A market with two outcomes. -/
def market2way : Market :=
  { name := some "2way"
    outcomes := some
      [ ⟨some "home_team_winner", some (62/100 : Rat)⟩
      , ⟨some "away_team_winner", some (38/100 : Rat)⟩ ] }

/-- A market with its outcomes list absent. -/
def marketTotal : Market := { name := some "total", outcomes := none }

/-- A concrete probabilities payload with two markets. -/
def probEx : Option ProbResponse :=
  some { probabilities := some { markets := some [market2way, marketTotal] } }

theorem c7_markets_mapping_witness :
    (marketsSrc (none : Option ProbResponse) = none →
        oddsMarkets (none : Option ProbResponse) = []) ∧
      oddsMarkets (none : Option ProbResponse) = [] ∧
      (oddsMarkets probEx)[0]?.map OddsMarket.key =
        ((marketsListOf probEx)[0]?).map Market.name ∧
      ((oddsMarkets probEx)[0]?.bind fun m => m.outcomes[1]?).map OddsOutcomeEntry.label =
        ((marketsListOf probEx)[0]?.bind fun m => (m.outcomes.getD [])[1]?).map Outcome.name :=
  ⟨(c7_markets_mapping none).1,
    (c7_markets_mapping none).1 rfl,
    (c7_markets_mapping probEx).2.2.1 0,
    (c7_markets_mapping probEx).2.2.2.1 0 1⟩
